import Mathlib

/-!
Shallow embedding of the passwordless login route (`app/routes/login.tsx`):
the `action` POST handler (email syntax check, honeypot check, email
verification with fallbacks, magic-link token send) and the `loader` GET
handler.  External collaborators (verifier service, database user lookup,
mailing-list lookup, token sender) are modelled as an explicit environment;
each call may either return a value or throw, modelled with `Except String`
where the `String` is the thrown error's message.  The order in which the
collaborators are invoked is recorded as a trace of `CallEvent`s.
-/

namespace Login

/-- Modelled from the spec: the cookie-backed login session
(`getLoginInfoSession` in `app/utils/login.server.ts`, not among the
inspected sources).  Fields `email`, `error`, `magicLink`, mutated by
`setEmail`, `flashError`, `setMagicLink`; serialized into response headers
at the end of every code path (in this model, the redirect result carries
the final session). -/
structure LoginSession where
  email : Option String
  error : Option String
  magicLink : Option String
deriving DecidableEq, Repr

def LoginSession.setEmail (s : LoginSession) (e : String) : LoginSession :=
  { s with email := some e }

def LoginSession.flashError (s : LoginSession) (m : String) : LoginSession :=
  { s with error := some m }

def LoginSession.setMagicLink (s : LoginSession) (l : String) : LoginSession :=
  { s with magicLink := some l }

/-- The form-encoded POST body.  `none` models a field absent from the
form data (`formData.get` returning `null`). -/
structure FormData where
  email : Option String
  password : Option String
deriving DecidableEq, Repr

/-- Result of `verifyEmailAddress` (the email-deliverability verifier):
`{status: true}` or `{status: false, error: {message}}`. -/
inductive VerifierResult
  | verified
  | notVerified (message : String)
deriving DecidableEq, Repr

/-- Result of `isEmailVerified`:
`{verified: true}` or `{verified: false, message}`. -/
inductive VerifiedStatus
  | verified
  | unverified (message : String)
deriving DecidableEq, Repr

/-- One call to an external collaborator, recorded in order of invocation. -/
inductive CallEvent
  | verifyCall (email : String)
  | dbLookup (email : String)
  | convertKitLookup (email : String)
  | sendTokenCall (email : String) (domainUrl : String)
deriving DecidableEq, Repr

/-- The external collaborators of the login action.  Each call either
returns (`Except.ok`) or throws (`Except.error message`).
`findUnique` models `prisma.user.findUnique({select: {id: true}, where: {email}})`
returning the found user's id or `none`; `getConvertKitSubscriber` returns
the subscriber record (modelled by an id) or `none`.  `domainUrl` models
`getDomainUrl(request)`. -/
structure Env where
  verifyEmailAddress : String → Except String VerifierResult
  findUnique : String → Except String (Option Nat)
  getConvertKitSubscriber : String → Except String (Option Nat)
  sendToken : String → String → Except String String
  domainUrl : String

/-- A character the JavaScript regex `.` matches: anything except a line
terminator (`\n`, `\r`, U+2028, U+2029). -/
def matchesDot (c : Char) : Bool :=
  !(c == '\n' || c == '\r' || c == Char.ofNat 0x2028 || c == Char.ofNat 0x2029)

/-- `emailAddress.match(/.+@.+/)` is non-null: the string has a character
`@` at some position `i` with a `.`-matchable character directly before and
directly after it. -/
def matchesEmailPattern (s : String) : Bool :=
  let cs := s.data
  (List.range cs.length).any fun i =>
    decide (0 < i) && decide (i + 1 < cs.length) &&
    (cs.getD i ' ' == '@') && matchesDot (cs.getD (i - 1) '\n') &&
    matchesDot (cs.getD (i + 1) '\n')

/-- The spec's wording for a syntactically invalid email, for comparison
with the regex in the source: the string contains an `@` with non-empty
text on both sides. -/
def containsAtWithBothSides (s : String) : Bool :=
  let cs := s.data
  (List.range cs.length).any fun i =>
    decide (0 < i) && decide (i + 1 < cs.length) && (cs.getD i ' ' == '@')

/-- `isEmailVerified` (lines 134-150): call the verifier; if it reports
not-verified, fall back to the database user-existence lookup, then to the
mailing-list subscriber lookup.  A throw anywhere propagates.  The second
component records the collaborator calls actually made, in order. -/
def isEmailVerified (env : Env) (email : String) :
    Except String VerifiedStatus × List CallEvent :=
  match env.verifyEmailAddress email with
  | .error e => (.error e, [.verifyCall email])
  | .ok .verified => (.ok .verified, [.verifyCall email])
  | .ok (.notVerified msg) =>
    match env.findUnique email with
    | .error e => (.error e, [.verifyCall email, .dbLookup email])
    | .ok u =>
      if u.isSome then
        (.ok .verified, [.verifyCall email, .dbLookup email])
      else
        match env.getConvertKitSubscriber email with
        | .error e =>
          (.error e,
           [.verifyCall email, .dbLookup email, .convertKitLookup email])
        | .ok c =>
          if c.isSome then
            (.ok .verified,
             [.verifyCall email, .dbLookup email, .convertKitLookup email])
          else
            (.ok (.unverified msg),
             [.verifyCall email, .dbLookup email, .convertKitLookup email])

/-- The error flashed when verification ultimately fails (line 105), with
the verifier's message interpolated. -/
def unverifiedErrorMessage (msg : String) : String :=
  "I tried to verify that email and got this error message: \"" ++ msg ++
  "\". If you think this is wrong, sign up for Kent's mailing list first (using the form on the bottom of the page) and once that's confirmed you'll be able to sign up."

/-- Modelled from the spec: `getErrorMessage` (from `app/utils/misc.tsx`,
not among the inspected sources) extracts the human-readable message from a
thrown value; thrown errors are modelled here by their message strings, so
it is the identity. -/
def getErrorMessage (e : String) : String := e

/-- The outcome of the action: a redirect (with HTTP status, location and
the final session, whose serialization is the response's session headers),
or an exception escaping the handler. -/
inductive ActionResult
  | redirect (status : Nat) (location : String) (session : LoginSession)
  | thrown (message : String)
deriving DecidableEq, Repr

/-- Whether the action's outcome is a redirect response (as opposed to an
exception escaping the handler). -/
def ActionResult.isRedirect : ActionResult → Bool
  | .redirect _ _ _ => true
  | .thrown _ => false

/-- The second `try` block (lines 118-131): send the magic-link token; on
success store the link in the session and redirect 302, on a throw flash
the error message and redirect 400. -/
def sendTokenAndRedirect (env : Env) (emailAddress : String)
    (s : LoginSession) (tr : List CallEvent) :
    ActionResult × List CallEvent :=
  match env.sendToken emailAddress env.domainUrl with
  | .ok magicLink =>
    (.redirect 302 "/login" (s.setMagicLink magicLink),
     tr ++ [.sendTokenCall emailAddress env.domainUrl])
  | .error e =>
    (.redirect 400 "/login" (s.flashError (getErrorMessage e)),
     tr ++ [.sendTokenCall emailAddress env.domainUrl])

/-- The POST `action` handler (lines 74-132).  The initial session (decoded
from the request cookie) and the parsed form data are inputs.  A missing
(non-string) `email` field fails the `invariant` on line 79, which throws.
If the verifier call throws, the error is logged and swallowed and the flow
continues to the token send (fail-open, lines 112-116). -/
def action (env : Env) (form : FormData) (session : LoginSession) :
    ActionResult × List CallEvent :=
  match form.email with
  | none => (.thrown "Form submitted incorrectly", [])
  | some emailAddress =>
    let s := if emailAddress = "" then session else session.setEmail emailAddress
    if !matchesEmailPattern emailAddress then
      (.redirect 400 "/login" (s.flashError "A valid email is required"), [])
    else if form.password.getD "" != "" then
      (.redirect 302 "/login" s, [])
    else
      match isEmailVerified env emailAddress with
      | (.ok (.unverified msg), tr) =>
        (.redirect 400 "/login" (s.flashError (unverifiedErrorMessage msg)), tr)
      | (.ok .verified, tr) => sendTokenAndRedirect env emailAddress s tr
      | (.error _, tr) => sendTokenAndRedirect env emailAddress s tr

/-- The GET `loader` outcome: redirect to `/me` for an authenticated user,
else the page render data (the session's `email` and `error`). -/
inductive LoaderResult
  | redirectToMe
  | page (email : Option String) (error : Option String)
deriving DecidableEq, Repr

/-- The GET `loader` handler (lines 34-53).  `user` is the result of
`getUser(request)`; the cache headers carry no logic and are omitted. -/
def loader (user : Option Nat) (loginSession : LoginSession) : LoaderResult :=
  match user with
  | some _ => .redirectToMe
  | none => .page loginSession.email loginSession.error

/-- `env` with the verifier replaced by one that reports every address
verified; used to state the fail-open property. -/
def withVerifiedVerifier (env : Env) : Env :=
  { env with verifyEmailAddress := fun _ => .ok .verified }

/-! Concrete environments and sessions used by witnesses and counterexamples. -/

def emptySession : LoginSession := ⟨none, none, none⟩

def envOk : Env :=
  ⟨fun _ => .ok .verified, fun _ => .ok none, fun _ => .ok none,
   fun _ _ => .ok "https://example.com/magic?token=t1", "https://example.com"⟩

def envVerifierThrows : Env :=
  ⟨fun _ => .error "ECONNREFUSED", fun _ => .ok none, fun _ => .ok none,
   fun _ _ => .ok "https://example.com/magic?token=t2", "https://example.com"⟩

def envNotVerified : Env :=
  ⟨fun _ => .ok (.notVerified "undeliverable address"), fun _ => .ok none,
   fun _ => .ok none, fun _ _ => .ok "https://example.com/magic?token=t3",
   "https://example.com"⟩

def envSendFails : Env :=
  ⟨fun _ => .ok .verified, fun _ => .ok none, fun _ => .ok none,
   fun _ _ => .error "Unable to send the email", "https://example.com"⟩

example : matchesEmailPattern "a@b.com" = true := by decide
example : matchesEmailPattern "not-an-email" = false := by decide
example : matchesEmailPattern "@b" = false := by decide
example : matchesEmailPattern "a@" = false := by decide
example : matchesEmailPattern "" = false := by decide

/-- A string matching the email regex is non-empty. -/
theorem matchesEmailPattern_ne_empty (email : String)
    (hm : matchesEmailPattern email = true) : email ≠ "" := by
  intro h
  subst h
  simp [matchesEmailPattern] at hm

/-- The regex `/.+@.+/` only matches strings that contain an `@` with
non-empty text on both sides (the spec's wording). -/
theorem containsAt_of_matchesPattern (s : String)
    (h : matchesEmailPattern s = true) : containsAtWithBothSides s = true := by
  simp only [matchesEmailPattern, List.any_eq_true] at h
  simp only [containsAtWithBothSides, List.any_eq_true]
  obtain ⟨i, hi, hp⟩ := h
  simp only [Bool.and_eq_true] at hp
  exact ⟨i, hi, by simp only [Bool.and_eq_true]; exact ⟨⟨hp.1.1.1.1, hp.1.1.1.2⟩, hp.1.1.2⟩⟩

/-- Structural case analysis of the action when the email field is present:
every such run ends in a single redirect to `/login` carrying the final
session, and that session's email is the initial session's updated with the
submitted address (when non-empty). -/
theorem action_some_structure (env : Env) (form : FormData)
    (s0 : LoginSession) (email : String) (he : form.email = some email) :
    ∃ st sess tr, action env form s0 = (.redirect st "/login" sess, tr)
      ∧ sess.email = (if email = "" then s0 else s0.setEmail email).email := by
  cases hm : matchesEmailPattern email with
  | false =>
    refine ⟨400,
      (if email = "" then s0 else s0.setEmail email).flashError "A valid email is required",
      [], ?_, rfl⟩
    simp [action, he, hm]
  | true =>
    by_cases hp0 : form.password.getD "" = ""
    · rcases hver : isEmailVerified env email with ⟨res, tr⟩
      match res with
      | .ok .verified =>
        cases hs : env.sendToken email env.domainUrl with
        | ok link =>
          refine ⟨302,
            (if email = "" then s0 else s0.setEmail email).setMagicLink link,
            tr ++ [.sendTokenCall email env.domainUrl], ?_, rfl⟩
          simp [action, he, hm, hp0, hver, sendTokenAndRedirect, hs]
        | error e =>
          refine ⟨400,
            (if email = "" then s0 else s0.setEmail email).flashError (getErrorMessage e),
            tr ++ [.sendTokenCall email env.domainUrl], ?_, rfl⟩
          simp [action, he, hm, hp0, hver, sendTokenAndRedirect, hs]
      | .ok (.unverified msg) =>
        refine ⟨400,
          (if email = "" then s0 else s0.setEmail email).flashError (unverifiedErrorMessage msg),
          tr, ?_, rfl⟩
        simp [action, he, hm, hp0, hver]
      | .error e =>
        cases hs : env.sendToken email env.domainUrl with
        | ok link =>
          refine ⟨302,
            (if email = "" then s0 else s0.setEmail email).setMagicLink link,
            tr ++ [.sendTokenCall email env.domainUrl], ?_, rfl⟩
          simp [action, he, hm, hp0, hver, sendTokenAndRedirect, hs]
        | error e2 =>
          refine ⟨400,
            (if email = "" then s0 else s0.setEmail email).flashError (getErrorMessage e2),
            tr ++ [.sendTokenCall email env.domainUrl], ?_, rfl⟩
          simp [action, he, hm, hp0, hver, sendTokenAndRedirect, hs]
    · refine ⟨302, if email = "" then s0 else s0.setEmail email, [], ?_, rfl⟩
      simp [action, he, hm, hp0]

/-- C3: for every POST whose email field is a string with no `@` having
non-empty text on both sides, the action returns an HTTP 400 redirect with
the error "A valid email is required" flashed into the session, and the
call trace is empty (no verification, database, mailing-list or token-send
collaborator is invoked). -/
theorem invalidEmail_returns400 (env : Env) (form : FormData)
    (s0 : LoginSession) (email : String)
    (he : form.email = some email)
    (hv : containsAtWithBothSides email = false) :
    ∃ sess, action env form s0 = (.redirect 400 "/login" sess, [])
      ∧ sess.error = some "A valid email is required" := by
  have hm : matchesEmailPattern email = false := by
    cases hmm : matchesEmailPattern email with
    | false => rfl
    | true => rw [containsAt_of_matchesPattern email hmm] at hv; cases hv
  refine ⟨(if email = "" then s0 else s0.setEmail email).flashError "A valid email is required",
    ?_, rfl⟩
  simp [action, he, hm]

/-- C3 witness: the spec's example input `not-an-email`. -/
theorem invalidEmail_returns400_witness :
    (FormData.mk (some "not-an-email") (some "")).email = some "not-an-email"
    ∧ containsAtWithBothSides "not-an-email" = false
    ∧ ∃ sess, action envOk ⟨some "not-an-email", some ""⟩ emptySession
        = (.redirect 400 "/login" sess, [])
      ∧ sess.error = some "A valid email is required" :=
  ⟨rfl, by decide,
   invalidEmail_returns400 envOk ⟨some "not-an-email", some ""⟩ emptySession
     "not-an-email" rfl (by decide)⟩

/-- C7 counterexample: a POST whose form body has no `email` field does
not produce a 400 redirect with a flashed error: the `invariant` on
line 79 throws out of the handler. -/
theorem missingEmail_counterexample :
    (action envOk ⟨none, some ""⟩ emptySession).1
        = .thrown "Form submitted incorrectly"
    ∧ (action envOk ⟨none, some ""⟩ emptySession).1.isRedirect = false :=
  ⟨rfl, rfl⟩

/-- C7 amended: for every POST whose form body has no `email` field, the
action throws the invariant error "Form submitted incorrectly" (no
redirect is returned, nothing is flashed, no collaborator is called). -/
theorem missingEmail_throwsInvariant (env : Env) (form : FormData)
    (s0 : LoginSession) (he : form.email = none) :
    action env form s0 = (.thrown "Form submitted incorrectly", []) := by
  simp [action, he]

/-- C7 amended witness: the empty form. -/
theorem missingEmail_throwsInvariant_witness :
    (FormData.mk none none).email = none
    ∧ action envOk ⟨none, none⟩ emptySession
        = (.thrown "Form submitted incorrectly", []) :=
  ⟨rfl, missingEmail_throwsInvariant envOk ⟨none, none⟩ emptySession rfl⟩

/-- C8 counterexample: not every code path through the action ends in a
redirect: with the `email` field missing the handler throws. -/
theorem actionThrows_counterexample :
    (action envVerifierThrows ⟨none, none⟩ emptySession).1
        = .thrown "Form submitted incorrectly"
    ∧ (action envVerifierThrows ⟨none, none⟩ emptySession).1.isRedirect = false :=
  ⟨rfl, rfl⟩

/-- C8 amended: every code path through the action in which the `email`
form field is present as a string terminates in exactly one redirect to
`/login` carrying the final session (whose serialization is the session
headers); no such path throws. -/
theorem emailPresent_endsInRedirect (env : Env) (form : FormData)
    (s0 : LoginSession) (email : String) (he : form.email = some email) :
    ∃ st sess tr, action env form s0 = (.redirect st "/login" sess, tr) := by
  obtain ⟨st, sess, tr, hact, -⟩ := action_some_structure env form s0 email he
  exact ⟨st, sess, tr, hact⟩

/-- C8 amended witness: a well-formed verified submission. -/
theorem emailPresent_endsInRedirect_witness :
    (FormData.mk (some "a@b.com") none).email = some "a@b.com"
    ∧ ∃ st sess tr, action envOk ⟨some "a@b.com", none⟩ emptySession
        = (.redirect st "/login" sess, tr) :=
  ⟨rfl, emailPresent_endsInRedirect envOk ⟨some "a@b.com", none⟩ emptySession
    "a@b.com" rfl⟩

/-- C10: for every POST whose `email` field is a non-empty string, the
session leaving the action carries that string as its email — on every
path, including the malformed-email 400 path and the honeypot silent
redirect — and the loader (for an unauthenticated user) then renders it
as the page's `email` data. -/
theorem sessionEmail_updated (env : Env) (form : FormData)
    (s0 : LoginSession) (email : String)
    (he : form.email = some email) (hne : email ≠ "") :
    ∃ st sess tr, action env form s0 = (.redirect st "/login" sess, tr)
      ∧ sess.email = some email
      ∧ loader none sess = .page (some email) sess.error := by
  obtain ⟨st, sess, tr, hact, hemail⟩ := action_some_structure env form s0 email he
  rw [if_neg hne] at hemail
  simp only [LoginSession.setEmail] at hemail
  exact ⟨st, sess, tr, hact, hemail, by simp [loader, hemail]⟩

/-- C10 witness: a malformed non-empty email on the 400 path. -/
theorem sessionEmail_updated_witness :
    (FormData.mk (some "not-an-email") none).email = some "not-an-email"
    ∧ "not-an-email" ≠ ""
    ∧ ∃ st sess tr, action envOk ⟨some "not-an-email", none⟩ emptySession
        = (.redirect st "/login" sess, tr)
      ∧ sess.email = some "not-an-email"
      ∧ loader none sess = .page (some "not-an-email") sess.error :=
  ⟨rfl, by decide,
   sessionEmail_updated envOk ⟨some "not-an-email", none⟩ emptySession
     "not-an-email" rfl (by decide)⟩

/-- C1: for a POST with a syntactically valid email and an empty honeypot
field, if the verifier call throws, the action behaves exactly as if the
verifier had reported the address verified (it proceeds to the token
send), and when the token send succeeds the response is a 302 (no HTTP 400
arises from the verifier throw alone). -/
theorem verifierThrow_failOpen (env : Env) (form : FormData)
    (s0 : LoginSession) (email err : String)
    (he : form.email = some email) (hm : matchesEmailPattern email = true)
    (hp : form.password.getD "" = "")
    (hv : env.verifyEmailAddress email = .error err) :
    action env form s0 = action (withVerifiedVerifier env) form s0
    ∧ ∀ link, env.sendToken email env.domainUrl = .ok link →
        (action env form s0).1
          = .redirect 302 "/login" ((s0.setEmail email).setMagicLink link) := by
  have hne : email ≠ "" := matchesEmailPattern_ne_empty email hm
  constructor
  · simp [action, he, hm, hp, isEmailVerified, hv, withVerifiedVerifier,
      sendTokenAndRedirect]
  · intro link hs
    simp [action, he, hm, hp, hne, isEmailVerified, hv, sendTokenAndRedirect, hs]

/-- C1 witness: a verifier that throws `ECONNREFUSED`. -/
theorem verifierThrow_failOpen_witness :
    (FormData.mk (some "a@b.com") none).email = some "a@b.com"
    ∧ matchesEmailPattern "a@b.com" = true
    ∧ (FormData.mk (some "a@b.com") none).password.getD "" = ""
    ∧ envVerifierThrows.verifyEmailAddress "a@b.com" = .error "ECONNREFUSED"
    ∧ (action envVerifierThrows ⟨some "a@b.com", none⟩ emptySession
        = action (withVerifiedVerifier envVerifierThrows) ⟨some "a@b.com", none⟩
            emptySession
      ∧ ∀ link,
          envVerifierThrows.sendToken "a@b.com" envVerifierThrows.domainUrl
            = .ok link →
          (action envVerifierThrows ⟨some "a@b.com", none⟩ emptySession).1
            = .redirect 302 "/login"
                ((emptySession.setEmail "a@b.com").setMagicLink link)) :=
  ⟨rfl, by decide, rfl, rfl,
   verifierThrow_failOpen envVerifierThrows ⟨some "a@b.com", none⟩ emptySession
     "a@b.com" "ECONNREFUSED" rfl (by decide) rfl rfl⟩

/-- C5: for a POST with a valid email and empty honeypot, when the
verifier reports not-verified and both fallbacks fail, the action responds
400 to `/login` with the verifier's message embedded in the error flashed
into the session. -/
theorem unverified_flashes400 (env : Env) (form : FormData)
    (s0 : LoginSession) (email msg : String)
    (he : form.email = some email) (hm : matchesEmailPattern email = true)
    (hp : form.password.getD "" = "")
    (hv : env.verifyEmailAddress email = .ok (.notVerified msg))
    (hu : env.findUnique email = .ok none)
    (hc : env.getConvertKitSubscriber email = .ok none) :
    ∃ sess tr, action env form s0 = (.redirect 400 "/login" sess, tr)
      ∧ sess.error = some (unverifiedErrorMessage msg)
      ∧ ∃ pre post, unverifiedErrorMessage msg = pre ++ msg ++ post := by
  have hne : email ≠ "" := matchesEmailPattern_ne_empty email hm
  refine ⟨(s0.setEmail email).flashError (unverifiedErrorMessage msg),
    [.verifyCall email, .dbLookup email, .convertKitLookup email],
    ?_, rfl, ⟨_, _, rfl⟩⟩
  simp [action, he, hm, hp, hne, isEmailVerified, hv, hu, hc]

/-- C5 witness: a not-verified verifier answer with no user and no
subscriber. -/
theorem unverified_flashes400_witness :
    (FormData.mk (some "a@b.com") none).email = some "a@b.com"
    ∧ matchesEmailPattern "a@b.com" = true
    ∧ (FormData.mk (some "a@b.com") none).password.getD "" = ""
    ∧ envNotVerified.verifyEmailAddress "a@b.com"
        = .ok (.notVerified "undeliverable address")
    ∧ envNotVerified.findUnique "a@b.com" = .ok none
    ∧ envNotVerified.getConvertKitSubscriber "a@b.com" = .ok none
    ∧ ∃ sess tr, action envNotVerified ⟨some "a@b.com", none⟩ emptySession
        = (.redirect 400 "/login" sess, tr)
      ∧ sess.error = some (unverifiedErrorMessage "undeliverable address")
      ∧ ∃ pre post, unverifiedErrorMessage "undeliverable address"
          = pre ++ "undeliverable address" ++ post :=
  ⟨rfl, by decide, rfl, rfl, rfl, rfl,
   unverified_flashes400 envNotVerified ⟨some "a@b.com", none⟩ emptySession
     "a@b.com" "undeliverable address" rfl (by decide) rfl rfl rfl rfl⟩

/-- C6: for a POST with a valid email and empty honeypot in which
verification succeeds and the token send returns a magic link, the action
stores the link in the session and responds 302 to `/login` carrying the
session. -/
theorem verified_storesMagicLink (env : Env) (form : FormData)
    (s0 : LoginSession) (email link : String)
    (he : form.email = some email) (hm : matchesEmailPattern email = true)
    (hp : form.password.getD "" = "")
    (hver : (isEmailVerified env email).1 = .ok .verified)
    (hs : env.sendToken email env.domainUrl = .ok link) :
    ∃ sess tr, action env form s0 = (.redirect 302 "/login" sess, tr)
      ∧ sess.magicLink = some link := by
  have hne : email ≠ "" := matchesEmailPattern_ne_empty email hm
  rcases h2 : isEmailVerified env email with ⟨res, tr⟩
  rw [h2] at hver
  simp only at hver
  subst hver
  refine ⟨(s0.setEmail email).setMagicLink link,
    tr ++ [.sendTokenCall email env.domainUrl], ?_, rfl⟩
  simp [action, he, hm, hp, hne, h2, sendTokenAndRedirect, hs]

/-- C6 witness: a verified address with a successful token send. -/
theorem verified_storesMagicLink_witness :
    (FormData.mk (some "a@b.com") none).email = some "a@b.com"
    ∧ matchesEmailPattern "a@b.com" = true
    ∧ (FormData.mk (some "a@b.com") none).password.getD "" = ""
    ∧ (isEmailVerified envOk "a@b.com").1 = .ok .verified
    ∧ envOk.sendToken "a@b.com" envOk.domainUrl
        = .ok "https://example.com/magic?token=t1"
    ∧ ∃ sess tr, action envOk ⟨some "a@b.com", none⟩ emptySession
        = (.redirect 302 "/login" sess, tr)
      ∧ sess.magicLink = some "https://example.com/magic?token=t1" :=
  ⟨rfl, by decide, rfl, rfl, rfl,
   verified_storesMagicLink envOk ⟨some "a@b.com", none⟩ emptySession
     "a@b.com" "https://example.com/magic?token=t1" rfl (by decide) rfl rfl rfl⟩

/-- C9: for a POST with a valid email and empty honeypot that reaches the
token send (verification passed or threw), if the token send throws then
the action flashes the thrown error's message and responds 400 to
`/login`, and the session's magic link is unchanged from the incoming
session. -/
theorem sendTokenThrow_flashes400 (env : Env) (form : FormData)
    (s0 : LoginSession) (email err : String)
    (he : form.email = some email) (hm : matchesEmailPattern email = true)
    (hp : form.password.getD "" = "")
    (hver : (isEmailVerified env email).1 = .ok .verified
      ∨ ∃ e0, (isEmailVerified env email).1 = .error e0)
    (hs : env.sendToken email env.domainUrl = .error err) :
    ∃ sess tr, action env form s0 = (.redirect 400 "/login" sess, tr)
      ∧ sess.error = some (getErrorMessage err)
      ∧ sess.magicLink = s0.magicLink := by
  have hne : email ≠ "" := matchesEmailPattern_ne_empty email hm
  rcases h2 : isEmailVerified env email with ⟨res, tr⟩
  rw [h2] at hver
  simp only at hver
  refine ⟨(s0.setEmail email).flashError (getErrorMessage err),
    tr ++ [.sendTokenCall email env.domainUrl], ?_, rfl, rfl⟩
  rcases hver with hver | ⟨e0, hver⟩ <;> subst hver <;>
    simp [action, he, hm, hp, hne, h2, sendTokenAndRedirect, hs]

/-- C9 witness: a verified address whose token send throws. -/
theorem sendTokenThrow_flashes400_witness :
    (FormData.mk (some "a@b.com") none).email = some "a@b.com"
    ∧ matchesEmailPattern "a@b.com" = true
    ∧ (FormData.mk (some "a@b.com") none).password.getD "" = ""
    ∧ ((isEmailVerified envSendFails "a@b.com").1 = .ok .verified
      ∨ ∃ e0, (isEmailVerified envSendFails "a@b.com").1 = .error e0)
    ∧ envSendFails.sendToken "a@b.com" envSendFails.domainUrl
        = .error "Unable to send the email"
    ∧ ∃ sess tr, action envSendFails ⟨some "a@b.com", none⟩ emptySession
        = (.redirect 400 "/login" sess, tr)
      ∧ sess.error = some (getErrorMessage "Unable to send the email")
      ∧ sess.magicLink = emptySession.magicLink :=
  ⟨rfl, by decide, rfl, Or.inl rfl, rfl,
   sendTokenThrow_flashes400 envSendFails ⟨some "a@b.com", none⟩ emptySession
     "a@b.com" "Unable to send the email" rfl (by decide) rfl (Or.inl rfl) rfl⟩

/-- C2: the verification check always calls the verifier service first;
the database fallback runs exactly when the service reports not-verified,
and the mailing-list fallback exactly when the database lookup also found
no user; the overall result is verified exactly when the service verifies
or either fallback succeeds — so a later step in the chain is never
invoked once an earlier one has succeeded. -/
theorem isEmailVerified_chain (env : Env) (email : String)
    (vr : VerifierResult) (u c : Option Nat)
    (hv : env.verifyEmailAddress email = .ok vr)
    (hu : env.findUnique email = .ok u)
    (hc : env.getConvertKitSubscriber email = .ok c) :
    ((isEmailVerified env email).2.head? = some (.verifyCall email))
    ∧ ((isEmailVerified env email).1 = .ok .verified
        ↔ (vr = .verified ∨ u.isSome = true ∨ c.isSome = true))
    ∧ ((CallEvent.dbLookup email ∈ (isEmailVerified env email).2)
        ↔ vr ≠ .verified)
    ∧ ((CallEvent.convertKitLookup email ∈ (isEmailVerified env email).2)
        ↔ (vr ≠ .verified ∧ u = none)) := by
  cases vr with
  | verified => simp [isEmailVerified, hv]
  | notVerified m =>
    cases u with
    | none =>
      cases c with
      | none => simp [isEmailVerified, hv, hu, hc]
      | some cid => simp [isEmailVerified, hv, hu, hc]
    | some uid => simp [isEmailVerified, hv, hu]

/-- C2 witness: a not-verified verifier answer with no user and no
mailing-list subscriber, exercising the full chain. -/
theorem isEmailVerified_chain_witness :
    envNotVerified.verifyEmailAddress "a@b.com"
        = .ok (.notVerified "undeliverable address")
    ∧ envNotVerified.findUnique "a@b.com" = .ok none
    ∧ envNotVerified.getConvertKitSubscriber "a@b.com" = .ok none
    ∧ (((isEmailVerified envNotVerified "a@b.com").2.head?
          = some (.verifyCall "a@b.com"))
      ∧ ((isEmailVerified envNotVerified "a@b.com").1 = .ok .verified
          ↔ ((VerifierResult.notVerified "undeliverable address") = .verified
            ∨ (none : Option Nat).isSome = true
            ∨ (none : Option Nat).isSome = true))
      ∧ ((CallEvent.dbLookup "a@b.com"
            ∈ (isEmailVerified envNotVerified "a@b.com").2)
          ↔ (VerifierResult.notVerified "undeliverable address") ≠ .verified)
      ∧ ((CallEvent.convertKitLookup "a@b.com"
            ∈ (isEmailVerified envNotVerified "a@b.com").2)
          ↔ ((VerifierResult.notVerified "undeliverable address") ≠ .verified
            ∧ (none : Option Nat) = none))) :=
  ⟨rfl, rfl, rfl,
   isEmailVerified_chain envNotVerified "a@b.com"
     (.notVerified "undeliverable address") none none rfl rfl rfl⟩

/-- C4 counterexample: a submission with a non-empty honeypot `password`
but a malformed email is not silently redirected: the email-format check
runs first, so the action returns HTTP 400 with an error flashed. -/
theorem honeypot_counterexample :
    (FormData.mk (some "not-an-email") (some "hunter2")).password
        = some "hunter2"
    ∧ (action envOk ⟨some "not-an-email", some "hunter2"⟩ emptySession).1
        = .redirect 400 "/login"
            ⟨some "not-an-email", some "A valid email is required", none⟩ :=
  ⟨rfl, rfl⟩

/-- C4 amended: for every submission with a non-empty `password`
(honeypot) field, the action calls no collaborator (in particular never
the verifier or the token sender) and never sets a magic link; and when
the `email` field is also present and matches the email pattern, it
returns a 302 redirect to `/login` with no error flashed. -/
theorem honeypot_silent (env : Env) (form : FormData) (s0 : LoginSession)
    (p : String) (hp : form.password = some p) (hpe : p ≠ "") :
    (action env form s0).2 = []
    ∧ (∀ st loc sess, (action env form s0).1 = .redirect st loc sess →
        sess.magicLink = s0.magicLink)
    ∧ (∀ email, form.email = some email → matchesEmailPattern email = true →
        action env form s0 = (.redirect 302 "/login" (s0.setEmail email), [])
        ∧ (s0.setEmail email).error = s0.error) := by
  cases hfe : form.email with
  | none =>
    refine ⟨by simp [action, hfe], ?_, ?_⟩
    · intro st loc sess h
      simp [action, hfe] at h
    · intro email he
      exact absurd he (by simp)
  | some email =>
    cases hm : matchesEmailPattern email with
    | false =>
      refine ⟨by simp [action, hfe, hm], ?_, ?_⟩
      · intro st loc sess h
        simp [action, hfe, hm] at h
        rw [← h.2.2]
        cases hem : decide (email = "") <;>
          simp [LoginSession.flashError, LoginSession.setEmail,
            of_decide_eq_false, of_decide_eq_true, hem]
      · intro email2 he2 hm2
        injection he2 with he2
        subst he2
        rw [hm] at hm2
        cases hm2
    | true =>
      have hne : email ≠ "" := matchesEmailPattern_ne_empty email hm
      have hgd : form.password.getD "" = p := by rw [hp]; rfl
      refine ⟨by simp [action, hfe, hm, hgd, hpe], ?_, ?_⟩
      · intro st loc sess h
        simp [action, hfe, hm, hgd, hpe, hne] at h
        rw [← h.2.2]
        rfl
      · intro email2 he2 hm2
        injection he2 with he2
        subst he2
        exact ⟨by simp [action, hfe, hm, hgd, hpe, hne], rfl⟩

/-- C4 amended witness: a bot submission with a valid email. -/
theorem honeypot_silent_witness :
    (FormData.mk (some "a@b.com") (some "hunter2")).password = some "hunter2"
    ∧ "hunter2" ≠ ""
    ∧ ((action envOk ⟨some "a@b.com", some "hunter2"⟩ emptySession).2 = []
      ∧ (∀ st loc sess,
          (action envOk ⟨some "a@b.com", some "hunter2"⟩ emptySession).1
            = .redirect st loc sess →
          sess.magicLink = emptySession.magicLink)
      ∧ (∀ email, (FormData.mk (some "a@b.com") (some "hunter2")).email
            = some email →
          matchesEmailPattern email = true →
          action envOk ⟨some "a@b.com", some "hunter2"⟩ emptySession
            = (.redirect 302 "/login" (emptySession.setEmail email), [])
          ∧ (emptySession.setEmail email).error = emptySession.error)) :=
  ⟨rfl, by decide,
   honeypot_silent envOk ⟨some "a@b.com", some "hunter2"⟩ emptySession
     "hunter2" rfl (by decide)⟩

end Login
